import Mathlib

/-!
Shallow embedding of `.github/scripts/validate-geofeed.py` (class
`IPGeoFeedValidator` and `main`), together with a model of the parts of the
`ipaddr` library (version 2.1.x) and of the `csv` module that the script
calls.  Lines of feed text are modelled as `List Char`; the validator's
per-run state (`line_number`, `output_log`, the output stream) is modelled
explicitly as a structure, and a validation run is a left fold of the
per-line step over the feed.
-/

namespace Geofeed

/-! ### Python string primitives -/

/-- The ASCII whitespace characters removed by Python's `str.strip()`. -/
def pyIsSpace (c : Char) : Bool :=
  c == ' ' || c == '\t' || c == '\n' || c == '\r' || c == '\x0b' || c == '\x0c'

/-- Python `str.strip()`: remove surrounding whitespace. -/
def pyStripL (l : List Char) : List Char :=
  ((l.dropWhile pyIsSpace).reverse.dropWhile pyIsSpace).reverse

/-- Python `line.rstrip('\r\n')`: drop trailing CR and LF characters. -/
def rstripCRLF (l : List Char) : List Char :=
  (l.reverse.dropWhile (fun c => c == '\r' || c == '\n')).reverse

/-- Python `str.split(sep)` for a one-character separator: the result is
always non-empty and keeps empty pieces. -/
def pySplitChar (sep : Char) : List Char → List (List Char)
  | [] => [[]]
  | c :: rest =>
    let r := pySplitChar sep rest
    if c == sep then [] :: r
    else (c :: r.headD []) :: r.tail

/-- Decimal value of a digit string (callers check all characters are digits). -/
def digitsVal (l : List Char) : Nat :=
  l.foldl (fun acc c => acc * 10 + (c.toNat - 48)) 0

/-- Python `int(s)`: surrounding whitespace and an optional sign are allowed
around a non-empty run of decimal digits. -/
def pyInt (l : List Char) : Option Int :=
  match pyStripL l with
  | '+' :: ds => if !ds.isEmpty && ds.all Char.isDigit then some (digitsVal ds : Int) else none
  | '-' :: ds => if !ds.isEmpty && ds.all Char.isDigit then some (-(digitsVal ds : Int)) else none
  | ds => if !ds.isEmpty && ds.all Char.isDigit then some (digitsVal ds : Int) else none

/-- Python `str.isalpha()` restricted to ASCII letters (geofeed codes are
ASCII): true iff the string is non-empty and every character is a letter. -/
def pyIsalpha (l : List Char) : Bool :=
  !l.isEmpty && l.all Char.isAlpha

/-! ### Model of the `ipaddr` library (v4/v6 addresses and networks)

`ipaddr.IPAddress` tries `IPv4Address` then `IPv6Address`;
`ipaddr.IPNetwork` tries `IPv4Network` then `IPv6Network` (with
`strict=False`, so host bits are kept in `_ip` and cleared in `network`).
The dotted netmask/hostmask notation of `IPv4Network` (`a.b.c.d/x.y.z.w`)
is not modelled; prefixes are modelled in the numeric form `int(s)` with
bounds checked, exactly as `_is_valid_netmask` does for non-dotted masks. -/

/-- One octet of a dotted quad: decimal digits only, value at most 255. -/
def parseOctet (l : List Char) : Option Nat :=
  if !l.isEmpty && l.all Char.isDigit then
    let n := digitsVal l
    if n ≤ 255 then some n else none
  else none

/-- `IPv4Address._ip_int_from_string`: exactly four octets separated by dots. -/
def parseIPv4 (l : List Char) : Option Nat :=
  match pySplitChar '.' l with
  | [a, b, c, d] => do
    let a ← parseOctet a
    let b ← parseOctet b
    let c ← parseOctet c
    let d ← parseOctet d
    some (((a * 256 + b) * 256 + c) * 256 + d)
  | _ => none

def isHexDigitChar (c : Char) : Bool :=
  c.isDigit || ('a' ≤ c && c ≤ 'f') || ('A' ≤ c && c ≤ 'F')

def hexCharVal (c : Char) : Nat :=
  if c.isDigit then c.toNat - 48
  else if 'a' ≤ c then c.toNat - 87
  else c.toNat - 55

def hexVal (l : List Char) : Nat :=
  l.foldl (fun acc c => acc * 16 + hexCharVal c) 0

/-- `IPv6Address._parse_hextet`: at most four hex digits. -/
def parseHextet (l : List Char) : Option Nat :=
  if !l.isEmpty && l.length ≤ 4 && l.all isHexDigitChar then some (hexVal l) else none

def hexDigitChar (n : Nat) : Char :=
  if n < 10 then Char.ofNat (48 + n) else Char.ofNat (87 + n)

/-- Python `'%x' % n` for `n < 65536`: lowercase hex without leading zeros. -/
def toHexChars (n : Nat) : List Char :=
  let ds := [hexDigitChar (n / 4096 % 16), hexDigitChar (n / 256 % 16),
             hexDigitChar (n / 16 % 16), hexDigitChar (n % 16)]
  match ds.dropWhile (fun c => c == '0') with
  | [] => ['0']
  | l => l

/-- Parse the hextets `ps` into an accumulator, failing if any is invalid. -/
def foldHextets (ps : List (List Char)) : Option Nat :=
  ps.foldlM (fun acc p => (parseHextet p).map (fun h => acc * 65536 + h)) 0

/-- `IPv6Address._ip_int_from_string`: split on ':', rewrite a trailing
IPv4-style suffix into two hextets, locate at most one interior `::`, and
assemble the 128-bit value. -/
def parseIPv6 (l : List Char) : Option Nat := do
  let parts0 := pySplitChar ':' l
  if parts0.length < 3 then none else
  let parts ←
    match parts0.getLast? with
    | some last =>
      if last.contains '.' then
        match parseIPv4 last with
        | none => none
        | some v4 => some (parts0.dropLast ++ [toHexChars (v4 / 65536), toHexChars (v4 % 65536)])
      else some parts0
    | none => none
  if parts.length > 9 then none else
  let emptyIdxs := (List.range parts.length).filter
    (fun i => decide (0 < i) && decide (i + 1 < parts.length) && (parts.getD i ['x']).isEmpty)
  match emptyIdxs with
  | [] =>
    if parts.length != 8 then none else foldHextets parts
  | [i] =>
    let partsHi ←
      if (parts.headD ['x']).isEmpty then
        if i = 1 then some 0 else none
      else some i
    let partsLo ←
      if (parts.getLastD ['x']).isEmpty then
        if parts.length - i - 1 = 1 then some 0 else none
      else some (parts.length - i - 1)
    if partsHi + partsLo ≥ 8 then none else
    let partsSkipped := 8 - partsHi - partsLo
    let hi ← foldHextets (parts.take partsHi)
    let lo ← foldHextets (parts.drop (parts.length - partsLo))
    some (hi * 65536 ^ (partsSkipped + partsLo) + lo)
  | _ => none

/-- Result of `ipaddr.IPAddress`: a v4 or v6 address as an integer. -/
inductive IPAddr where
  | v4 (ip : Nat)
  | v6 (ip : Nat)
deriving DecidableEq, Repr

/-- Result of `ipaddr.IPNetwork`: `_ip` (host bits kept) and `_prefixlen`. -/
inductive IPNet where
  | v4 (ip plen : Nat)
  | v6 (ip plen : Nat)
deriving DecidableEq, Repr

/-- `ipaddr.IPAddress(s)`: try IPv4, then IPv6. -/
def parseIPAddress (l : List Char) : Option IPAddr :=
  match parseIPv4 l with
  | some ip => some (IPAddr.v4 ip)
  | none =>
    match parseIPv6 l with
    | some ip => some (IPAddr.v6 ip)
    | none => none

/-- `ipaddr.IPv4Network(s, strict=False)` with a numeric prefix length. -/
def parseIPv4Network (l : List Char) : Option IPNet :=
  match pySplitChar '/' l with
  | [a] => (parseIPv4 a).map (fun ip => IPNet.v4 ip 32)
  | [a, p] => do
    let ip ← parseIPv4 a
    let pv ← pyInt p
    if 0 ≤ pv ∧ pv ≤ 32 then some (IPNet.v4 ip pv.toNat) else none
  | _ => none

/-- `ipaddr.IPv6Network(s, strict=False)` with a numeric prefix length. -/
def parseIPv6Network (l : List Char) : Option IPNet :=
  match pySplitChar '/' l with
  | [a] => (parseIPv6 a).map (fun ip => IPNet.v6 ip 128)
  | [a, p] => do
    let ip ← parseIPv6 a
    let pv ← pyInt p
    if 0 ≤ pv ∧ pv ≤ 128 then some (IPNet.v6 ip pv.toNat) else none
  | _ => none

/-- `ipaddr.IPNetwork(s)`: try IPv4, then IPv6. -/
def parseIPNetwork (l : List Char) : Option IPNet :=
  match parseIPv4Network l with
  | some nw => some nw
  | none => parseIPv6Network l

/-- The `_ip` attribute of a parsed network (host bits kept, as given). -/
def ipOfNet : IPNet → Nat
  | IPNet.v4 ip _ => ip
  | IPNet.v6 ip _ => ip

/-- The `network._ip` attribute: the address with host bits cleared. -/
def netIP : IPNet → Nat
  | IPNet.v4 ip plen => ip - ip % 2 ^ (32 - plen)
  | IPNet.v6 ip plen => ip - ip % 2 ^ (128 - plen)

def ipv4Lit (a b c d : Nat) : Nat := ((a * 256 + b) * 256 + c) * 256 + d

/-- Membership of a 32-bit address in a network given by address and prefix. -/
def inNet4 (ip netAddr plen : Nat) : Bool :=
  ip / 2 ^ (32 - plen) == netAddr / 2 ^ (32 - plen)

/-- `ipaddr` `is_private`: for IPv4 membership in 10.0.0.0/8, 172.16.0.0/12
or 192.168.0.0/16; for IPv6 membership in fc00::/7. -/
def ipIsPrivate : IPAddr → Bool
  | IPAddr.v4 ip =>
    inNet4 ip (ipv4Lit 10 0 0 0) 8 || inNet4 ip (ipv4Lit 172 16 0 0) 12 ||
      inNet4 ip (ipv4Lit 192 168 0 0) 16
  | IPAddr.v6 ip => ip / 2 ^ 121 == 0xfc00 * 2 ^ 112 / 2 ^ 121

/-! ### Model of `csv.reader` on a single line

Default dialect: delimiter `,`, quote `"`, doubled quotes inside a quoted
field, non-strict (stray quote characters are kept literally, text after a
closing quote rejoins the field).  `csv.reader([s])` yields no row for the
empty string and exactly one row otherwise. -/

inductive CsvMode where
  | start
  | unquoted
  | quoted
  | quoteEnd
deriving DecidableEq

/-- The field-splitting state machine of `csv.reader` on one line. -/
def csvFields : List Char → CsvMode → List Char → List (List Char)
  | [], _, cur => [cur.reverse]
  | c :: rest, CsvMode.start, cur =>
    if c == '"' then csvFields rest CsvMode.quoted cur
    else if c == ',' then cur.reverse :: csvFields rest CsvMode.start []
    else csvFields rest CsvMode.unquoted (c :: cur)
  | c :: rest, CsvMode.unquoted, cur =>
    if c == ',' then cur.reverse :: csvFields rest CsvMode.start []
    else csvFields rest CsvMode.unquoted (c :: cur)
  | c :: rest, CsvMode.quoted, cur =>
    if c == '"' then csvFields rest CsvMode.quoteEnd cur
    else csvFields rest CsvMode.quoted (c :: cur)
  | c :: rest, CsvMode.quoteEnd, cur =>
    if c == '"' then csvFields rest CsvMode.quoted ('"' :: cur)
    else if c == ',' then cur.reverse :: csvFields rest CsvMode.start []
    else csvFields rest CsvMode.unquoted (c :: cur)

/-- The rows produced by `csv.reader([line])`: none for an empty line,
exactly one otherwise. -/
def csvRows (l : List Char) : List (List (List Char)) :=
  if l.isEmpty then [] else [csvFields l CsvMode.start []]

/-! ### The validator itself (`IPGeoFeedValidator`)

Each `_Is...Correct` method both returns a boolean and may log diagnostics;
we model such a method as a pure function returning the boolean together
with the list of diagnostics it reports, in order. -/

/-- A logged diagnostic: severity (`"ERROR"` or `"WARNING"`) and message. -/
structure Diag where
  severity : String
  message : String
deriving DecidableEq, Repr

def errIncorrectNetwork : Diag := ⟨"ERROR", "Incorrect IP Network."⟩
def errIncorrectAddress : Diag := ⟨"ERROR", "Incorrect IP Address."⟩
def errPrivateAddress : Diag := ⟨"ERROR", "IP Address must not be private."⟩
def errAlpha2 : Diag := ⟨"ERROR", "Alpha 2 code must be in the ISO 3166-1 alpha 2 format."⟩
def errRegionCode : Diag := ⟨"ERROR", "Region code must be in ISO 3166-2 format."⟩
def warnFieldCount (n : Nat) : Diag :=
  ⟨"WARNING", "5 fields were expected (got " ++ toString n ++ ")."⟩

/-- `_IsCIDRCorrect` (source lines 98-110).  The `return False` on source
line 103 is unconditional (it is at the level of the `if`, not inside it),
so the `is_private` check on lines 104-106 and the `return True` on line
110 are unreachable and have no translation. -/
def isCIDRCorrect (cidr : List Char) : Bool × List Diag :=
  match parseIPNetwork cidr with
  | some nw =>
    if netIP nw != ipOfNet nw then (false, [errIncorrectNetwork])
    else (false, [])
  | none => (false, [errIncorrectNetwork])

/-- `_IsIPAddressCorrect` (source lines 112-121). -/
def isIPAddressCorrect (l : List Char) : Bool × List Diag :=
  match parseIPAddress l with
  | none => (false, [errIncorrectAddress])
  | some a =>
    if ipIsPrivate a then (false, [errPrivateAddress])
    else (true, [])

/-- `_IsIPAddressOrPrefixCorrect` (source lines 93-96). -/
def isIPAddressOrPrefixCorrect (field : List Char) : Bool × List Diag :=
  if field.contains '/' then isCIDRCorrect field
  else isIPAddressCorrect field

/-- `_IsAlpha2CodeCorrect` (source lines 124-131). -/
def isAlpha2CodeCorrect (l : List Char) : Bool × List Diag :=
  if l.length == 0 then (true, [])
  else if l.length != 2 || !pyIsalpha l then (false, [errAlpha2])
  else (true, [])

/-- `_IsRegionCodeCorrect` (source lines 133-143): the alpha-2 check is
applied to `parts[0]`, the portion before the first '-', and its
diagnostics (if any) are the ones logged. -/
def isRegionCodeCorrect (l : List Char) : Bool × List Diag :=
  if l.length == 0 then (true, [])
  else if !l.contains '-' then (false, [errRegionCode])
  else if !(isAlpha2CodeCorrect ((pySplitChar '-' l).headD [])).1 then
    (false, (isAlpha2CodeCorrect ((pySplitChar '-' l).headD [])).2)
  else (true, (isAlpha2CodeCorrect ((pySplitChar '-' l).headD [])).2)

/-- `_ValidateFields` (source lines 76-90): the diagnostics logged for one
record, in order.  The local `is_correct` of the source is never read, so
only the diagnostics are observable. -/
def validateFields (fields : List (List Char)) : List Diag :=
  (isIPAddressOrPrefixCorrect (fields.headD [])).2
    ++ (if fields.length > 1 then (isAlpha2CodeCorrect (fields.getD 1 [])).2 else [])
    ++ (if fields.length > 2 then (isRegionCodeCorrect (fields.getD 2 [])).2 else [])
    ++ (if fields.length != 5 then [warnFieldCount fields.length] else [])

/-- `_ShouldIgnoreLine` (source lines 69-73): strip surrounding whitespace;
ignore if the result starts with '#' or is empty. -/
def shouldIgnoreLine (l : List Char) : Bool :=
  match pyStripL l with
  | [] => true
  | c :: _ => c == '#'

/-- Per-run state: `line_number`, `output_log` (kept as one ordered list of
diagnostics; the source's dict keyed by severity is recovered by filtering)
and the chunks written to the output stream, in order. -/
structure VState where
  lineNumber : Nat
  log : List Diag
  out : List String
deriving DecidableEq, Repr

/-- State after `__init__`. -/
def initState : VState := ⟨0, [], []⟩

/-- `'%s: %s\n' % (severity, message)` as written by `_ReportWithSeverity`. -/
def formatDiag (d : Diag) : String :=
  d.severity ++ ": " ++ d.message ++ "\n"

/-- The fields `csv.reader` yields for a non-ignored line: the first row of
`csv.reader([line])` (source line 64; indexing `[0]` would raise only if
there were no rows, which `csvRows_of_not_ignored` rules out). -/
def recordFields (line : List Char) : List (List Char) :=
  (csvRows line).headD []

/-- The non-ignored branch of `_ValidateLine` followed by
`_FlushOutputStream` (source lines 64-67 and 163-168): validate the fields
of the raw line, append the diagnostics to the log and the stream, and —
iff some diagnostic was reported (`is_correct_line` became false) — write
the trailing `line N: <comment-stripped text>` context block.  `st` already
carries the current line number. -/
def processRecord (st : VState) (line : List Char) : VState :=
  let diags := validateFields (recordFields line)
  let display := (pySplitChar '#' line).headD []
  { st with
    log := st.log ++ diags
    out := st.out ++ diags.map formatDiag
      ++ (if diags.isEmpty then []
          else ["line " ++ toString st.lineNumber ++ ": " ++ String.mk display ++ "\n\n"]) }

/-- `_ValidateLine` (source lines 55-67): strip trailing line terminators,
bump the line counter, and either skip the line or validate its fields.
(The source also stores the comment-stripped text in `self.line` and resets
`is_correct_line` before the skip test; both are unobservable for skipped
lines and are modelled inside `processRecord` for the others.) -/
def validateLineStep (st : VState) (rawLine : String) : VState :=
  let line := rstripCRLF rawLine.toList
  let st := { st with lineNumber := st.lineNumber + 1 }
  if shouldIgnoreLine line then st
  else processRecord st line

/-- `Validate` (source lines 30-38) starting from a fresh validator. -/
def runValidator (feed : List String) : VState :=
  feed.foldl validateLineStep initState

/-- `CountErrors` (source lines 50-52). -/
def countErrors (st : VState) (severity : String) : Nat :=
  (st.log.filter (fun d => d.severity == severity)).length

/-- `main` (source lines 171-176): exit status 1 if `CountErrors('ERROR')`
is truthy, 0 otherwise. -/
def mainExitCode (feed : List String) : Nat :=
  if countErrors (runValidator feed) "ERROR" != 0 then 1 else 0

/-- Stated from the claim (for comparison with `recordFields`): the fields
obtained by CSV-splitting the portion of the line before its first '#'. -/
def commentStrippedFields (line : List Char) : List (List Char) :=
  (csvRows ((pySplitChar '#' line).headD [])).headD []

/-! ### Helper lemmas -/

theorem pySplitChar_ne_nil (sep : Char) (l : List Char) : pySplitChar sep l ≠ [] := by
  cases l with
  | nil => simp [pySplitChar]
  | cons c rest => simp only [pySplitChar]; split <;> simp

theorem pySplitChar_headD (sep : Char) (l : List Char) :
    (pySplitChar sep l).headD [] = l.takeWhile (fun c => c != sep) := by
  induction l with
  | nil => simp [pySplitChar]
  | cons c rest ih =>
    cases hr : pySplitChar sep rest with
    | nil => exact absurd hr (pySplitChar_ne_nil sep rest)
    | cons f fs =>
      rw [hr] at ih
      simp only [List.headD_cons] at ih
      by_cases h : c = sep
      · simp [pySplitChar, hr, h]
      · have hb : (c == sep) = false := by simp [h]
        simp [pySplitChar, hr, hb, h, ih]

theorem csvFields_length_pos (l : List Char) (m : CsvMode) (cur : List Char) :
    0 < (csvFields l m cur).length := by
  induction l generalizing m cur with
  | nil => cases m <;> simp [csvFields]
  | cons c rest ih =>
    cases m <;> simp only [csvFields] <;> repeat' split <;> simp [ih]

theorem shouldIgnoreLine_iff (l : List Char) :
    shouldIgnoreLine l = true ↔
      (pyStripL l = [] ∨ (pyStripL l).head? = some '#') := by
  unfold shouldIgnoreLine
  cases h : pyStripL l with
  | nil => simp
  | cons c t => simp [beq_iff_eq]

theorem alpha2_severity (l : List Char) :
    ∀ d ∈ (isAlpha2CodeCorrect l).2, d.severity = "ERROR" := by
  intro d hd
  unfold isAlpha2CodeCorrect at hd
  split at hd
  · simp at hd
  · split at hd
    · simp at hd; subst hd; rfl
    · simp at hd

theorem region_severity (l : List Char) :
    ∀ d ∈ (isRegionCodeCorrect l).2, d.severity = "ERROR" := by
  intro d hd
  unfold isRegionCodeCorrect at hd
  split at hd
  · simp at hd
  · split at hd
    · simp at hd; subst hd; rfl
    · split at hd <;> exact alpha2_severity _ d hd

theorem warn_filter_warning (n : Nat) :
    [warnFieldCount n].filter (fun d => d.severity == "WARNING") = [warnFieldCount n] := by
  simp [warnFieldCount]

theorem warn_filter_error (n : Nat) :
    [warnFieldCount n].filter (fun d => d.severity == "ERROR") = [] := by
  simp [warnFieldCount]

theorem cidr_severity (l : List Char) :
    ∀ d ∈ (isCIDRCorrect l).2, d.severity = "ERROR" := by
  intro d hd
  unfold isCIDRCorrect at hd
  split at hd
  · split at hd <;> simp at hd
    subst hd; rfl
  · simp at hd; subst hd; rfl

theorem ipaddress_severity (l : List Char) :
    ∀ d ∈ (isIPAddressCorrect l).2, d.severity = "ERROR" := by
  intro d hd
  unfold isIPAddressCorrect at hd
  split at hd
  · simp at hd; subst hd; rfl
  · split at hd <;> simp at hd
    subst hd; rfl

theorem ip_or_pre_severity (l : List Char) :
    ∀ d ∈ (isIPAddressOrPrefixCorrect l).2, d.severity = "ERROR" := by
  intro d hd
  unfold isIPAddressOrPrefixCorrect at hd
  split at hd
  · exact cidr_severity _ d hd
  · exact ipaddress_severity _ d hd

theorem filter_warning_eq_nil {ds : List Diag}
    (h : ∀ d ∈ ds, d.severity = "ERROR") :
    ds.filter (fun d => d.severity == "WARNING") = [] := by
  rw [List.filter_eq_nil_iff]
  intro d hd
  simp [h d hd]

theorem filter_error_eq_self {ds : List Diag}
    (h : ∀ d ∈ ds, d.severity = "ERROR") :
    ds.filter (fun d => d.severity == "ERROR") = ds := by
  rw [List.filter_eq_self]
  intro d hd
  simp [h d hd]

theorem not_ignored_prop {l : List Char} (h : shouldIgnoreLine l = false) :
    ¬ (shouldIgnoreLine l = true) := by
  intro hc
  rw [h] at hc
  exact Bool.noConfusion hc

theorem countErrors_ne_zero_iff (st : VState) :
    countErrors st "ERROR" ≠ 0 ↔ ∃ d ∈ st.log, d.severity = "ERROR" := by
  unfold countErrors
  rw [Ne, List.length_eq_zero, List.filter_eq_nil_iff]
  push_neg
  simp

/-- The diagnostics `_ValidateFields` logs with severity WARNING. -/
theorem validateFields_filter_warning (fields : List (List Char)) :
    (validateFields fields).filter (fun d => d.severity == "WARNING") =
      if fields.length = 5 then [] else [warnFieldCount fields.length] := by
  have h0 := filter_warning_eq_nil (ip_or_pre_severity (fields.headD []))
  have h1 : (if fields.length > 1 then (isAlpha2CodeCorrect (fields.getD 1 [])).2
      else []).filter (fun d => d.severity == "WARNING") = [] := by
    split
    · exact filter_warning_eq_nil (alpha2_severity _)
    · rfl
  have h2 : (if fields.length > 2 then (isRegionCodeCorrect (fields.getD 2 [])).2
      else []).filter (fun d => d.severity == "WARNING") = [] := by
    split
    · exact filter_warning_eq_nil (region_severity _)
    · rfl
  have h3 : (if fields.length != 5 then [warnFieldCount fields.length]
      else []).filter (fun d => d.severity == "WARNING") =
      if fields.length = 5 then [] else [warnFieldCount fields.length] := by
    by_cases h5 : fields.length = 5
    · have hb : (fields.length != 5) = false := by simp [h5]
      rw [hb, if_neg (by simp), if_pos h5]
      rfl
    · have hb : (fields.length != 5) = true := by simp [h5]
      rw [hb, if_pos rfl, if_neg h5]
      exact warn_filter_warning _
  unfold validateFields
  simp only [List.filter_append, h0, h1, h2, h3, List.nil_append]

/-- The diagnostics `_ValidateFields` logs with severity ERROR: exactly the
field-0, field-1 and field-2 diagnostics, whatever the field count is. -/
theorem validateFields_filter_error (fields : List (List Char)) :
    (validateFields fields).filter (fun d => d.severity == "ERROR") =
      (isIPAddressOrPrefixCorrect (fields.headD [])).2
        ++ (if 1 < fields.length then (isAlpha2CodeCorrect (fields.getD 1 [])).2 else [])
        ++ (if 2 < fields.length then (isRegionCodeCorrect (fields.getD 2 [])).2 else []) := by
  have h0 := filter_error_eq_self (ip_or_pre_severity (fields.headD []))
  have h1 : (if fields.length > 1 then (isAlpha2CodeCorrect (fields.getD 1 [])).2
      else []).filter (fun d => d.severity == "ERROR") =
      if fields.length > 1 then (isAlpha2CodeCorrect (fields.getD 1 [])).2 else [] := by
    split
    · exact filter_error_eq_self (alpha2_severity _)
    · rfl
  have h2 : (if fields.length > 2 then (isRegionCodeCorrect (fields.getD 2 [])).2
      else []).filter (fun d => d.severity == "ERROR") =
      if fields.length > 2 then (isRegionCodeCorrect (fields.getD 2 [])).2 else [] := by
    split
    · exact filter_error_eq_self (region_severity _)
    · rfl
  have h3 : (if fields.length != 5 then [warnFieldCount fields.length]
      else []).filter (fun d => d.severity == "ERROR") = [] := by
    split
    · exact warn_filter_error _
    · rfl
  unfold validateFields
  simp only [List.filter_append, h0, h1, h2, h3, List.append_nil, gt_iff_lt]

/-! ### The claims -/

/-- C1: for a first field containing '/', the diagnostics are exactly one
ERROR "Incorrect IP Network." when the field fails to parse as a network or
when its address has nonzero host bits (`network._ip` differs from `_ip`),
and nothing otherwise; the ERROR "IP Address must not be private." is never
produced for such a field (the private-range check is unreachable). -/
theorem c1_cidr_field_diagnostics (field : List Char)
    (h : field.contains '/' = true) :
    ((isIPAddressOrPrefixCorrect field).2 =
      match parseIPNetwork field with
      | none => [errIncorrectNetwork]
      | some nw => if netIP nw ≠ ipOfNet nw then [errIncorrectNetwork] else [])
    ∧ errPrivateAddress ∉ (isIPAddressOrPrefixCorrect field).2 := by
  unfold isIPAddressOrPrefixCorrect
  rw [if_pos h]
  unfold isCIDRCorrect
  constructor
  · cases hp : parseIPNetwork field with
    | none => rfl
    | some nw =>
      show (if (netIP nw != ipOfNet nw) = true then ((false : Bool), [errIncorrectNetwork])
            else ((false : Bool), ([] : List Diag))).2 =
          if netIP nw ≠ ipOfNet nw then [errIncorrectNetwork] else []
      by_cases hne : netIP nw = ipOfNet nw
      · rw [if_neg (by simp [hne]), if_neg (by simp [hne])]
      · rw [if_pos (by simp [hne]), if_pos hne]
  · cases hp : parseIPNetwork field with
    | none => decide
    | some nw =>
      show errPrivateAddress ∉ (if (netIP nw != ipOfNet nw) = true
            then ((false : Bool), [errIncorrectNetwork])
            else ((false : Bool), ([] : List Diag))).2
      by_cases hne : netIP nw = ipOfNet nw
      · rw [if_neg (by simp [hne])]
        decide
      · rw [if_pos (by simp [hne])]
        decide

theorem c1_witness :
    ("10.0.0.1/24".toList.contains '/' = true)
    ∧ (isIPAddressOrPrefixCorrect "10.0.0.1/24".toList).2 = [errIncorrectNetwork]
    ∧ ("10.0.0.0/24".toList.contains '/' = true)
    ∧ (isIPAddressOrPrefixCorrect "10.0.0.0/24".toList).2 = []
    ∧ errPrivateAddress ∉ (isIPAddressOrPrefixCorrect "10.0.0.0/24".toList).2 := by
  refine ⟨by decide, ?_, by decide, ?_,
    (c1_cidr_field_diagnostics "10.0.0.0/24".toList (by decide)).2⟩
  · rw [(c1_cidr_field_diagnostics "10.0.0.1/24".toList (by decide)).1]
    decide
  · rw [(c1_cidr_field_diagnostics "10.0.0.0/24".toList (by decide)).1]
    decide

/-- C2 as stated is false: `_ValidateLine` CSV-splits the raw line (only
trailing line terminators stripped), not the comment-stripped text, so text
after '#' does contribute to parsed fields.  On "192.0.2.1#,USA" the code
validates the two fields "192.0.2.1#" and "USA" — both derived from text at
or after the '#' — whereas CSV-splitting the portion before the first '#'
would give the single field "192.0.2.1". -/
theorem c2_counterexample :
    recordFields (rstripCRLF "192.0.2.1#,USA".toList)
      ≠ commentStrippedFields (rstripCRLF "192.0.2.1#,USA".toList)
    ∧ recordFields (rstripCRLF "192.0.2.1#,USA".toList)
      = ["192.0.2.1#".toList, "USA".toList]
    ∧ commentStrippedFields (rstripCRLF "192.0.2.1#,USA".toList)
      = ["192.0.2.1".toList]
    ∧ (validateLineStep initState "192.0.2.1#,USA").log
      = [errIncorrectAddress, errAlpha2, warnFieldCount 2] := by
  exact ⟨by decide, by decide, by decide, by decide⟩

/-- C2 amended: for every non-skipped line the fields validated are the
CSV-split of the raw line (after stripping trailing line terminators), not
of the comment-stripped text; the comment-stripped text is used only in the
trailing "line N:" context block. -/
theorem c2_amended_raw_line_split (st : VState) (line : String)
    (h : shouldIgnoreLine (rstripCRLF line.toList) = false) :
    (validateLineStep st line).log =
      st.log ++ validateFields (recordFields (rstripCRLF line.toList))
    ∧ (validateLineStep st line).out =
      st.out ++ (validateFields (recordFields (rstripCRLF line.toList))).map formatDiag
        ++ (if (validateFields (recordFields (rstripCRLF line.toList))).isEmpty then []
            else ["line " ++ toString (st.lineNumber + 1) ++ ": "
                  ++ String.mk ((pySplitChar '#' (rstripCRLF line.toList)).headD [])
                  ++ "\n\n"]) := by
  unfold validateLineStep
  rw [if_neg (not_ignored_prop h)]
  unfold processRecord
  exact ⟨rfl, rfl⟩

theorem c2_amended_witness :
    shouldIgnoreLine (rstripCRLF "192.0.2.1#,USA".toList) = false
    ∧ (validateLineStep initState "192.0.2.1#,USA").log =
      initState.log
        ++ validateFields (recordFields (rstripCRLF "192.0.2.1#,USA".toList)) := by
  refine ⟨by decide, ?_⟩
  exact (c2_amended_raw_line_split initState "192.0.2.1#,USA" (by decide)).1

/-- C3: a line is skipped — only the line counter changes, nothing is logged
and nothing (diagnostic or trailing context block) is written — exactly when
the line, after surrounding whitespace is removed, is empty or begins with
'#'; every other line is processed as a record. -/
theorem c3_skip_iff (st : VState) (line : String) :
    validateLineStep st line =
      if pyStripL (rstripCRLF line.toList) = []
          ∨ (pyStripL (rstripCRLF line.toList)).head? = some '#' then
        { st with lineNumber := st.lineNumber + 1 }
      else
        processRecord { st with lineNumber := st.lineNumber + 1 }
          (rstripCRLF line.toList) := by
  unfold validateLineStep
  by_cases h : shouldIgnoreLine (rstripCRLF line.toList) = true
  · rw [if_pos h, if_pos ((shouldIgnoreLine_iff _).mp h)]
  · rw [if_neg h, if_neg (fun hc => h ((shouldIgnoreLine_iff _).mpr hc))]

/-- C4: a first field without '/' is validated as a bare address: a parse
failure logs exactly the ERROR "Incorrect IP Address.", a parsed address in
a private range logs exactly the ERROR "IP Address must not be private.",
and otherwise nothing is logged for this field. -/
theorem c4_bare_address_diagnostics (field : List Char)
    (h : ¬ field.contains '/' = true) :
    (isIPAddressOrPrefixCorrect field).2 =
      match parseIPAddress field with
      | none => [errIncorrectAddress]
      | some a => if ipIsPrivate a then [errPrivateAddress] else [] := by
  unfold isIPAddressOrPrefixCorrect
  rw [if_neg h]
  unfold isIPAddressCorrect
  cases hp : parseIPAddress field with
  | none => rfl
  | some a => cases hpriv : ipIsPrivate a <;> simp [hpriv]

theorem c4_witness :
    (¬ "256.256.256.256".toList.contains '/' = true)
    ∧ (isIPAddressOrPrefixCorrect "256.256.256.256".toList).2
      = [errIncorrectAddress]
    ∧ (¬ "10.0.0.1".toList.contains '/' = true)
    ∧ (isIPAddressOrPrefixCorrect "10.0.0.1".toList).2 = [errPrivateAddress] := by
  refine ⟨by decide, ?_, by decide, ?_⟩
  · rw [c4_bare_address_diagnostics "256.256.256.256".toList (by decide)]
    decide
  · rw [c4_bare_address_diagnostics "10.0.0.1".toList (by decide)]
    decide

/-- C5: the process exit status is always 0 or 1, and it is non-zero exactly
when at least one ERROR-severity diagnostic is in the run's log — the error
count beyond one is irrelevant and WARNINGs alone never cause failure. -/
theorem c5_exit_status (feed : List String) :
    (mainExitCode feed = 0 ∨ mainExitCode feed = 1)
    ∧ (mainExitCode feed ≠ 0 ↔
        ∃ d ∈ (runValidator feed).log, d.severity = "ERROR") := by
  constructor
  · unfold mainExitCode
    split
    · exact Or.inr rfl
    · exact Or.inl rfl
  · rw [← countErrors_ne_zero_iff]
    unfold mainExitCode
    by_cases h : countErrors (runValidator feed) "ERROR" = 0
    · simp [h]
    · simp [h]

/-- C6: for a non-skipped line, the WARNING diagnostics logged for the line
are exactly one "5 fields were expected (got N)." when the parsed field
count N is not 5 and none when it is 5; and independently of the count the
ERROR diagnostics are exactly those of the checks of fields 0-2. -/
theorem c6_field_count_warning (st : VState) (line : String)
    (h : shouldIgnoreLine (rstripCRLF line.toList) = false) :
    (((validateLineStep st line).log.drop st.log.length).filter
        (fun d => d.severity == "WARNING") =
      if (recordFields (rstripCRLF line.toList)).length = 5 then []
      else [warnFieldCount (recordFields (rstripCRLF line.toList)).length])
    ∧ ((validateLineStep st line).log.drop st.log.length).filter
        (fun d => d.severity == "ERROR") =
      (isIPAddressOrPrefixCorrect
          ((recordFields (rstripCRLF line.toList)).headD [])).2
        ++ (if 1 < (recordFields (rstripCRLF line.toList)).length then
              (isAlpha2CodeCorrect
                ((recordFields (rstripCRLF line.toList)).getD 1 [])).2 else [])
        ++ (if 2 < (recordFields (rstripCRLF line.toList)).length then
              (isRegionCodeCorrect
                ((recordFields (rstripCRLF line.toList)).getD 2 [])).2 else []) := by
  have hstep : (validateLineStep st line).log =
      st.log ++ validateFields (recordFields (rstripCRLF line.toList)) := by
    unfold validateLineStep
    rw [if_neg (not_ignored_prop h)]
    rfl
  rw [hstep, List.drop_left]
  exact ⟨validateFields_filter_warning _, validateFields_filter_error _⟩

theorem c6_witness :
    shouldIgnoreLine (rstripCRLF "1.2.3.4,US".toList) = false
    ∧ ((validateLineStep initState "1.2.3.4,US").log.drop
          initState.log.length).filter (fun d => d.severity == "WARNING") =
      (if (recordFields (rstripCRLF "1.2.3.4,US".toList)).length = 5 then []
       else [warnFieldCount
          (recordFields (rstripCRLF "1.2.3.4,US".toList)).length]) := by
  refine ⟨by decide, ?_⟩
  exact (c6_field_count_warning initState "1.2.3.4,US" (by decide)).1

/-- C7: the region-code check logs nothing for the empty string, logs
exactly the ERROR "Region code must be in ISO 3166-2 format." for a
non-empty value without '-', and for a value containing '-' logs exactly
the diagnostics of the alpha-2-code check applied to the portion before the
first '-' (the portion after the '-' is never validated). -/
theorem c7_region_code_diagnostics (s : List Char) :
    (isRegionCodeCorrect s).2 =
      if s.length = 0 then []
      else if s.contains '-' = false then [errRegionCode]
      else (isAlpha2CodeCorrect (s.takeWhile (fun c => c != '-'))).2 := by
  unfold isRegionCodeCorrect
  by_cases h0 : s.length = 0
  · rw [if_pos (by simp [h0]), if_pos h0]
  · have e0 : (s.length == 0) = false := by simp [h0]
    rw [e0, if_neg (by simp), if_neg h0]
    cases hx : s.contains '-' with
    | false =>
      rw [if_pos (by simp), if_pos rfl]
    | true =>
      have hrhs : (if (true : Bool) = false then [errRegionCode]
          else (isAlpha2CodeCorrect (List.takeWhile (fun c => c != '-') s)).2) =
          (isAlpha2CodeCorrect (List.takeWhile (fun c => c != '-') s)).2 :=
        if_neg (by simp)
      rw [if_neg (by simp), hrhs, pySplitChar_headD]
      cases ha : (isAlpha2CodeCorrect (List.takeWhile (fun c => c != '-') s)).1 with
      | true => rw [if_neg (by simp)]
      | false => rw [if_pos (by simp)]

/-- C8: the alpha-2-code check accepts the empty string silently; a
non-empty string is accepted with no diagnostic exactly when it is two
characters long and entirely alphabetic, and otherwise logs exactly the
ERROR "Alpha 2 code must be in the ISO 3166-1 alpha 2 format.". -/
theorem c8_alpha2_code_diagnostics (s : List Char) :
    (isAlpha2CodeCorrect s).2 =
      if s.length = 0 ∨ (s.length = 2 ∧ s.all Char.isAlpha = true) then []
      else [errAlpha2] := by
  unfold isAlpha2CodeCorrect
  by_cases h0 : s.length = 0
  · rw [if_pos (by simp [h0]), if_pos (Or.inl h0)]
  · rw [if_neg (by simp [h0])]
    by_cases h2 : s.length = 2
    · have hne : s.isEmpty = false := by
        cases s
        · simp at h2
        · rfl
      by_cases ha : s.all Char.isAlpha = true
      · rw [if_neg (by simp [h2, pyIsalpha, hne, ha]),
          if_pos (Or.inr ⟨h2, ha⟩)]
      · have haf : s.all Char.isAlpha = false := by
          cases hx : s.all Char.isAlpha with
          | false => rfl
          | true => exact absurd hx ha
        rw [if_pos (by simp [pyIsalpha, hne, haf, h2]),
          if_neg (by simp [h0, h2, haf])]
    · rw [if_pos (by simp [h2]), if_neg (by simp [h0, h2])]

/-- C9: a non-skipped line is non-empty, so `csv.reader` yields at least one
row and the first row has at least one field — the `assert len(fields) > 0`
in `_ValidateFields` can never fail. -/
theorem c9_fields_nonempty (line : String)
    (h : shouldIgnoreLine (rstripCRLF line.toList) = false) :
    csvRows (rstripCRLF line.toList) ≠ []
    ∧ 0 < (recordFields (rstripCRLF line.toList)).length := by
  have hne : (rstripCRLF line.toList).isEmpty = false := by
    cases hl : rstripCRLF line.toList with
    | nil => rw [hl] at h; simp [shouldIgnoreLine, pyStripL] at h
    | cons c t => rfl
  unfold recordFields csvRows
  rw [hne]
  simp only [Bool.false_eq_true, if_false, List.headD_cons]
  exact ⟨by simp, csvFields_length_pos _ _ _⟩

theorem c9_witness :
    shouldIgnoreLine (rstripCRLF "x".toList) = false
    ∧ csvRows (rstripCRLF "x".toList) ≠ []
    ∧ 0 < (recordFields (rstripCRLF "x".toList)).length := by
  refine ⟨by decide, ?_, ?_⟩
  · exact (c9_fields_nonempty "x" (by decide)).1
  · exact (c9_fields_nonempty "x" (by decide)).2

/-- C10: a region-code field beginning with '-' is accepted with no
diagnostic, because the portion before the first '-' is the empty string
and the alpha-2-code check accepts the empty string. -/
theorem c10_leading_dash_region (s : List Char) :
    isRegionCodeCorrect ('-' :: s) = (true, []) := by
  have hsplit : (pySplitChar '-' ('-' :: s)).headD [] = [] := by
    simp [pySplitChar]
  unfold isRegionCodeCorrect
  rw [hsplit]
  rw [if_neg (by simp), if_neg (by simp [isAlpha2CodeCorrect]),
    if_neg (by simp [isAlpha2CodeCorrect])]
  simp [isAlpha2CodeCorrect]

end Geofeed
